import Mathlib

/-!
Shallow embedding of the `MainProcessor` AudioWorklet engine from
`src/main.ts` of the embryo-player repository: sample store, choke
groups, voice pool, metronome/24-PPQ clock and the per-block render
step. JS numbers are modelled as `ℚ`; a JS `NaN` (arising from an
out-of-bounds `Float32Array` read, which yields `undefined` and then
`NaN` under arithmetic) is modelled as `none` in `Val := Option ℚ`.
The two transcendental waveforms (`Math.sin(phase * clickFreq)` for the
metronome click and `Math.sin(2 * Math.PI * phase)` for the test tone)
are abstracted as function parameters `msin` and `stw`; no claim
depends on their values because every scenario considered keeps the
metronome sound and the test tone disabled.
-/

set_option maxRecDepth 10000

namespace Embryo

/-- A JS number cell: `none` models `NaN` (or `undefined` propagated
into arithmetic). -/
abbrev Val := Option ℚ

/-- JS addition on possibly-NaN values: `NaN + x = NaN`. -/
def vadd (a b : Val) : Val :=
  match a, b with
  | some x, some y => some (x + y)
  | _, _ => none

/-- `bus[i] += x`; a write past the end of a `Float32Array` is silently
ignored in JS, hence the out-of-range case leaves the bus unchanged. -/
def busAdd (bus : List Val) (i : ℕ) (x : Val) : List Val :=
  match bus[i]? with
  | some old => bus.set i (vadd old x)
  | none => bus

/-- `SampleVoice` from src/main.ts. -/
structure SampleVoice where
  sampleId : String
  bufferIndex : ℕ
  isPlaying : Bool
  gain : ℚ
  visSlot : ℕ
deriving DecidableEq, Repr

/-- The mutable fields of `MainProcessor` from src/main.ts. -/
structure MainProcessor where
  phase : ℚ
  isTonePlaying : Bool
  sampleBuffers : List (String × List (List ℚ))
  activeVoices : List SampleVoice
  isMetronomeEnabled : Bool
  bpm : ℚ
  metronomePhase : ℚ
  currentBeat : ℕ
  clickFreq : ℚ
  clickAmp : ℚ
  nextClickCountdown : ℚ
  samplesPerBeat : ℚ
  ticksUntilNextClock : ℚ
  chokeGroups : List (String × ℤ)
deriving DecidableEq, Repr

/-- `Map.get(k)`: exact-key lookup (JS string key equality). -/
def mapGet {α : Type} : List (String × α) → String → Option α
  | [], _ => none
  | (k', v') :: rest, k => if k' = k then some v' else mapGet rest k

/-- `Map.set(k, v)`: replaces the value at an existing key keeping
insertion order, otherwise appends a new entry. -/
def mapSet {α : Type} : List (String × α) → String → α → List (String × α)
  | [], k, v => [(k, v)]
  | (k', v') :: rest, k, v =>
    if k' = k then (k, v) :: rest else (k', v') :: mapSet rest k v

/-- If `pat` is a prefix of `s`, return the remainder of `s`. -/
def dropPat : List Char → List Char → Option (List Char)
  | [], s => some s
  | _ :: _, [] => none
  | p :: ps, c :: cs => if p = c then dropPat ps cs else none

/-- JS `String.prototype.replace` with a string pattern and empty
replacement: removes the first occurrence of `pat`, or returns the
input unchanged when `pat` does not occur. -/
def replaceFirst (pat : List Char) : List Char → List Char
  | [] => []
  | c :: rest =>
    match dropPat pat (c :: rest) with
    | some tail => tail
    | none => c :: replaceFirst pat rest

/-- Digits consumed by `parseInt`: `none` when the string holds no
leading decimal digit (`NaN`). -/
def parseDigits (s : List Char) : Option ℕ :=
  let ds := s.takeWhile Char.isDigit
  if ds = [] then none
  else some (ds.foldl (fun acc c => 10 * acc + (c.toNat - 48)) 0)

/-- JS `parseInt(s, 10)`: skip leading whitespace, optional sign,
then leading decimal digits; `NaN` (modelled `none`) when no digit. -/
def parseIntJS (s : List Char) : Option ℤ :=
  let s1 := s.dropWhile Char.isWhitespace
  match s1 with
  | '-' :: rest => (parseDigits rest).map (fun n => -(n : ℤ))
  | '+' :: rest => (parseDigits rest).map (fun n => (n : ℤ))
  | _ => (parseDigits s1).map (fun n => (n : ℤ))

/-- Visualization-slot derivation in `triggerVoice`:
`parseInt(id.replace('pad', ''), 10)`, then `padNum - 1` when the
result is a number in `1..16`, else slot `0`. -/
def padSlot (id : String) : ℕ :=
  match parseIntJS (replaceFirst ['p', 'a', 'd'] id.data) with
  | some n => if 1 ≤ n ∧ n ≤ 16 then (n - 1).toNat else 0
  | none => 0

/-- The command inlet messages (`AudioMessage` tags of src/main.ts). -/
inductive AudioMessage where
  | toggleTone (enabled : Bool)
  | loadSample (id : String) (buffers : List (List ℚ))
  | playSample (id : String) (velocity : ℚ)
  | setBpm (bpm : ℚ)
  | toggleMetronome (enabled : Bool)
  | setChokeGroup (id : String) (group : ℤ)
deriving DecidableEq, Repr

/-- The event outlet messages posted by the worklet; the free-form text
payload of `LOG` is diagnostic only and is not modelled. -/
inductive EngineEvent where
  | log
  | beat (idx : ℕ)
  | clockTick
deriving DecidableEq, Repr

/-- `updateTiming()`: `samplesPerBeat = (sampleRate * 60) / bpm`. -/
def updateTiming (sampleRate : ℚ) (s : MainProcessor) : MainProcessor :=
  { s with samplesPerBeat := sampleRate * 60 / s.bpm }

/-- Field initializers of `MainProcessor` followed by the constructor's
`updateTiming()` call. -/
def initState (sampleRate : ℚ) : MainProcessor :=
  updateTiming sampleRate
    { phase := 0
      isTonePlaying := false
      sampleBuffers := []
      activeVoices := []
      isMetronomeEnabled := false
      bpm := 120
      metronomePhase := 0
      currentBeat := 0
      clickFreq := 1 / 10
      clickAmp := 3 / 10
      nextClickCountdown := 0
      samplesPerBeat := 0
      ticksUntilNextClock := 0
      chokeGroups := [] }

/-- `triggerMetronome()`: reset the click envelope, post `BEAT` with the
current beat index, pick strong/weak click parameters, advance beat. -/
def triggerMetronome (s : MainProcessor) : MainProcessor × EngineEvent :=
  let s1 := { s with metronomePhase := 3000 }
  let s2 :=
    if s.currentBeat = 0 then { s1 with clickFreq := 1 / 4, clickAmp := 1 / 2 }
    else { s1 with clickFreq := 3 / 20, clickAmp := 3 / 10 }
  ({ s2 with currentBeat := (s.currentBeat + 1) % 4 }, EngineEvent.beat s.currentBeat)

/-- `triggerVoice(id, velocity)`: when the sample exists, stop every
playing voice in the triggering pad's choke group, then push a fresh
voice (cursor 0, gain = velocity, playing, slot from `padSlot`). -/
def triggerVoice (s : MainProcessor) (id : String) (velocity : ℚ) : MainProcessor :=
  if (mapGet s.sampleBuffers id).isSome then
    let voices :=
      match mapGet s.chokeGroups id with
      | some group =>
        s.activeVoices.map (fun v =>
          if v.isPlaying ∧ mapGet s.chokeGroups v.sampleId = some group then
            { v with isPlaying := false }
          else v)
      | none => s.activeVoices
    { s with activeVoices := voices ++
        [{ sampleId := id, bufferIndex := 0, isPlaying := true,
           gain := velocity, visSlot := padSlot id }] }
  else s

/-- `port.onmessage`: dispatch one command, returning the new state and
the posted events. -/
def onmessage (sampleRate : ℚ) (s : MainProcessor) (msg : AudioMessage) :
    MainProcessor × List EngineEvent :=
  match msg with
  | .toggleTone b => ({ s with isTonePlaying := b }, [])
  | .loadSample id buffers =>
    ({ s with sampleBuffers := mapSet s.sampleBuffers id buffers }, [.log])
  | .playSample id velocity => (triggerVoice s id velocity, [])
  | .setBpm b => (updateTiming sampleRate { s with bpm := b }, [.log])
  | .toggleMetronome b =>
    (if b then
        { s with isMetronomeEnabled := b, nextClickCountdown := 0, currentBeat := 0 }
      else { s with isMetronomeEnabled := b }, [])
  | .setChokeGroup id group =>
    ({ s with chokeGroups := mapSet s.chokeGroups id group }, [.log])

/-- One frame of the always-running clock loop: decrement the beat
countdown, fire the metronome/BEAT when it reaches ≤ 0 and reload it
with `samplesPerBeat`; decrement the 24-PPQ countdown, post
`CLOCK_TICK` when it reaches ≤ 0 and reload it with
`samplesPerBeat / 24`. -/
def clockFrame (s : MainProcessor) : MainProcessor × List EngineEvent :=
  let c := s.nextClickCountdown - 1
  let step1 : MainProcessor × List EngineEvent :=
    if c ≤ 0 then
      let r := triggerMetronome { s with nextClickCountdown := c }
      ({ r.1 with nextClickCountdown := r.1.samplesPerBeat }, [r.2])
    else ({ s with nextClickCountdown := c }, [])
  let s1 := step1.1
  let t := s1.ticksUntilNextClock - 1
  if t ≤ 0 then
    ({ s1 with ticksUntilNextClock := s1.samplesPerBeat / 24 },
      step1.2 ++ [EngineEvent.clockTick])
  else ({ s1 with ticksUntilNextClock := t }, step1.2)

/-- The per-block clock loop (`for i in 0..bufferSize`). -/
def clockLoop : ℕ → MainProcessor → MainProcessor × List EngineEvent
  | 0, s => (s, [])
  | n + 1, s =>
    let r1 := clockFrame s
    let r2 := clockLoop n r1.1
    (r2.1, r1.2 ++ r2.2)

/-- Metronome click frames: while the envelope phase is positive, add
`msin(phase * clickFreq) * clickAmp` to every mix channel at the
current frame and decay the phase by 15; otherwise break. -/
def metroFrames (msin : ℚ → ℚ) (freq amp : ℚ) :
    ℕ → ℕ → ℚ → List (List Val) → ℚ × List (List Val)
  | _, 0, ph, mix => (ph, mix)
  | i, n + 1, ph, mix =>
    if 0 < ph then
      let click := msin (ph * freq) * amp
      let mix' := mix.map (fun bus => busAdd bus i (some click))
      metroFrames msin freq amp (i + 1) n (ph - 15) mix'
    else (ph, mix)

/-- Metronome sound generation: runs only when the metronome is enabled
and the envelope phase is positive. -/
def metroSound (msin : ℚ → ℚ) (bufferSize : ℕ) (s : MainProcessor)
    (outs : List (List (List Val))) : MainProcessor × List (List (List Val)) :=
  if s.isMetronomeEnabled = true ∧ 0 < s.metronomePhase then
    let r := metroFrames msin s.clickFreq s.clickAmp 0 bufferSize s.metronomePhase
      (outs.headD [])
    ({ s with metronomePhase := r.1 }, outs.set 0 r.2)
  else (s, outs)

/-- Test-tone frames: `0.5 * Math.sin(2πφ)` (the waveform abstracted as
`stw`), phase advanced by `440 / sampleRate` and wrapped at 1. -/
def toneFrames (stw : ℚ → ℚ) (sampleRate : ℚ) :
    ℕ → ℕ → ℚ → List (List Val) → ℚ × List (List Val)
  | _, 0, ph, mix => (ph, mix)
  | i, n + 1, ph, mix =>
    let sample := 1 / 2 * stw ph
    let ph1 := ph + 440 / sampleRate
    let ph2 := if 1 < ph1 then ph1 - 1 else ph1
    let mix' := mix.map (fun bus => busAdd bus i (some sample))
    toneFrames stw sampleRate (i + 1) n ph2 mix'

/-- Test-tone generation, gated on `isTonePlaying`. -/
def toneGen (stw : ℚ → ℚ) (sampleRate : ℚ) (bufferSize : ℕ) (s : MainProcessor)
    (outs : List (List (List Val))) : MainProcessor × List (List (List Val)) :=
  if s.isTonePlaying then
    let r := toneFrames stw sampleRate 0 bufferSize s.phase (outs.headD [])
    ({ s with phase := r.1 }, outs.set 0 r.2)
  else (s, outs)

/-- Per-frame master-bus accumulation: for each mix channel `ch`, add
`buffer[min(ch, channels-1)][cursor] * gain` at frame `i`. -/
def addMixChannels (buf : List (List ℚ)) (g : ℚ) (cur i : ℕ) :
    ℕ → List (List Val) → List (List Val)
  | _, [] => []
  | ch, bus :: rest =>
    busAdd bus i
        (((buf[min ch (buf.length - 1)]?).bind (fun chn => chn[cur]?)).map (· * g)) ::
      addMixChannels buf g cur i (ch + 1) rest

/-- The per-voice frame loop of the sampler: mixes into the master bus
and (when provisioned) the voice's visualization bus, advances the
cursor, and stops the voice when the cursor reaches the sample length.
Arguments: frame index, remaining frames, cursor, playing flag, mix
channels, optional vis bus. -/
def voiceFrames (buf : List (List ℚ)) (g : ℚ) :
    ℕ → ℕ → ℕ → Bool → List (List Val) → Option (List Val) →
    ℕ × Bool × List (List Val) × Option (List Val)
  | _, 0, cur, playing, mix, vis => (cur, playing, mix, vis)
  | i, n + 1, cur, playing, mix, vis =>
    if playing then
      let mix' := addMixChannels buf g cur i 0 mix
      let vis' := vis.map (fun b =>
        busAdd b i (((buf[0]?).bind (fun chn => chn[cur]?)).map (· * g)))
      let cur' := cur + 1
      if (buf.headD []).length ≤ cur' then (cur', false, mix', vis')
      else voiceFrames buf g (i + 1) n cur' true mix' vis'
    else (cur, playing, mix, vis)

/-- The visualization-output selection of the sampler loop:
`outputs[visSlot + 1]` channel 0 when that output exists and has a
channel, else `null`. -/
def selectVisBus (outs : List (List (List Val))) (visIdx : ℕ) : Option (List Val) :=
  match outs[visIdx]? with
  | some out => if out.length ≠ 0 then some (out.headD []) else none
  | none => none

/-- Writing the (possibly absent) visualization bus back into the
output array at `visIdx`, channel 0. -/
def writeVisBack (outs : List (List (List Val))) (visIdx : ℕ) :
    Option (List Val) → List (List (List Val))
  | some visBus' =>
    match outs[visIdx]? with
    | some out => outs.set visIdx (out.set 0 visBus')
    | none => outs
  | none => outs

/-- One voice of the sampler loop: look the buffer up by the voice's
sample id (removing the voice when absent), select the visualization
output `outputs[visSlot + 1]` when it exists and has a channel, run the
frame loop, write the mix and vis buses back, and keep the voice only
when it is still playing. -/
def renderVoiceBlock (store : List (String × List (List ℚ))) (bufferSize : ℕ)
    (outs : List (List (List Val))) (voice : SampleVoice) :
    Option SampleVoice × List (List (List Val)) :=
  match mapGet store voice.sampleId with
  | none => (none, outs)
  | some buf =>
    let visIdx := voice.visSlot + 1
    let r := voiceFrames buf voice.gain 0 bufferSize voice.bufferIndex
      voice.isPlaying (outs.headD []) (selectVisBus outs visIdx)
    let outs1 := outs.set 0 r.2.2.1
    let outs2 := writeVisBack outs1 visIdx r.2.2.2
    (if r.2.1 then some { voice with bufferIndex := r.1, isPlaying := true }
      else none, outs2)

/-- The sampler loop iterates `activeVoices` from the last index down
to 0; this helper consumes the reversed voice list in order. -/
def samplerLoopRev (store : List (String × List (List ℚ))) (bufferSize : ℕ) :
    List SampleVoice → List (List (List Val)) →
    List SampleVoice × List (List (List Val))
  | [], outs => ([], outs)
  | v :: rest, outs =>
    let r := renderVoiceBlock store bufferSize outs v
    let rr := samplerLoopRev store bufferSize rest r.2
    (match r.1 with
      | some v' => v' :: rr.1
      | none => rr.1, rr.2)

/-- The sampler loop of `process` (step 4): voices are visited from the
end of the array; surviving voices keep their relative order. -/
def samplerLoop (store : List (String × List (List ℚ))) (bufferSize : ℕ)
    (voices : List SampleVoice) (outs : List (List (List Val))) :
    List SampleVoice × List (List (List Val)) :=
  let r := samplerLoopRev store bufferSize voices.reverse outs
  (r.1.reverse, r.2)

/-- `process(inputs, outputs)`: early-return when the mix output is
absent or has no channels; otherwise clear every channel of every
output, run the clock loop, the metronome sound, the test tone and the
sampler, and return the new state, the outputs and the posted events. -/
def process (sampleRate : ℚ) (msin stw : ℚ → ℚ) (s : MainProcessor)
    (outputs : List (List (List Val))) :
    MainProcessor × List (List (List Val)) × List EngineEvent :=
  match outputs[0]? with
  | none => (s, outputs, [])
  | some mixOutput =>
    if mixOutput.length = 0 then (s, outputs, [])
    else
      let bufferSize := (mixOutput.headD []).length
      let cleared := outputs.map (fun out =>
        out.map (fun ch => List.replicate ch.length (some (0 : ℚ))))
      let rc := clockLoop bufferSize s
      let rm := metroSound msin bufferSize rc.1 cleared
      let rt := toneGen stw sampleRate bufferSize rm.1 rm.2
      let rs := samplerLoop rt.1.sampleBuffers bufferSize rt.1.activeVoices rt.2
      ({ rt.1 with activeVoices := rs.1 }, rs.2, rc.2)

/-- A concrete stand-in for the abstracted sine waveforms, used only in
closed scenarios where the metronome sound and test tone are off (so
the result does not depend on it). -/
def zeroSin : ℚ → ℚ := fun _ => 0

/-- Modelled from the spec (§4.2, render step): the per-frame
accumulation a voice owes to its visualization bus — at each rendered
frame `i`, add `sample.channel[0][cursor] * gain`, stopping when the
cursor reaches the sample length. Used to state that the
implementation's visualization write refines this description. -/
def voiceVisRef (buf : List (List ℚ)) (g : ℚ) :
    ℕ → ℕ → ℕ → List Val → List Val
  | _, 0, _, visb => visb
  | i, n + 1, cur, visb =>
    let visb' := busAdd visb i (((buf[0]?).bind (fun chn => chn[cur]?)).map (· * g))
    if (buf.headD []).length ≤ cur + 1 then visb'
    else voiceVisRef buf g (i + 1) n (cur + 1) visb'

/-! ### Concrete scenario states -/

/-- Engine at 48 kHz with the 4-frame all-ones sample on `pad1`. -/
def sLoaded : MainProcessor :=
  (onmessage 48000 (initState 48000) (.loadSample "pad1" [[1, 1, 1, 1]])).1

/-- `sLoaded` after triggering `pad1` at velocity 0.5. -/
def sTriggered : MainProcessor :=
  (onmessage 48000 sLoaded (.playSample "pad1" (1 / 2))).1

/-- A host-provisioned stereo mix output of block length 8. -/
def outsStereo8 : List (List (List Val)) :=
  [[List.replicate 8 (some 0), List.replicate 8 (some 0)]]

/-- A host-provisioned stereo mix output of block length 4. -/
def outsStereo4 : List (List (List Val)) :=
  [[List.replicate 4 (some 0), List.replicate 4 (some 0)]]

/-- A host-provisioned stereo mix output of block length 128. -/
def outsStereo128 : List (List (List Val)) :=
  [[List.replicate 128 (some 0), List.replicate 128 (some 0)]]

/-- `sLoaded` after triggering `pad1` at velocity 1 and then replacing
`pad1`'s sample with a 4-frame all-fives buffer while the voice is
still in flight. -/
def sReplacedFives : MainProcessor :=
  (onmessage 48000 ((onmessage 48000 sLoaded (.playSample "pad1" 1)).1)
    (.loadSample "pad1" [[5, 5, 5, 5]])).1

/-- Load threes on `pad1`, trigger at velocity 1, replace with sevens:
the in-flight voice's next block reads the replacement buffer. -/
def sReplacedSevens : MainProcessor :=
  (onmessage 48000
    ((onmessage 48000
      ((onmessage 48000 (initState 48000) (.loadSample "pad1" [[3, 3, 3, 3]])).1)
      (.playSample "pad1" 1)).1)
    (.loadSample "pad1" [[7, 7, 7, 7]])).1

/-- `pad1` loaded and placed in choke group 1, then triggered twice in
a row (the second trigger while the first voice is still playing). -/
def sSelfChoke : MainProcessor :=
  (onmessage 48000
    ((onmessage 48000
      ((onmessage 48000 sLoaded (.setChokeGroup "pad1" 1)).1)
      (.playSample "pad1" 1)).1)
    (.playSample "pad1" 1)).1

/-- Three pads loaded; `pad1` and `pad2` share choke group 1 while
`pad3` sits in group 2; `pad1` and `pad3` have been triggered. -/
def sChoke : MainProcessor :=
  (onmessage 48000
    ((onmessage 48000
      ((onmessage 48000
        ((onmessage 48000
          ((onmessage 48000
            ((onmessage 48000
              ((onmessage 48000 sLoaded (.loadSample "pad2" [[2, 2]])).1)
              (.loadSample "pad3" [[3]])).1)
            (.setChokeGroup "pad1" 1)).1)
          (.setChokeGroup "pad2" 1)).1)
        (.setChokeGroup "pad3" 2)).1)
      (.playSample "pad1" 1)).1)
    (.playSample "pad3" 1)).1

/-! ### Helper lemmas -/

/-- Writing back the element already at an index leaves a list
unchanged. -/
theorem set_self {α : Type} : ∀ (l : List α) (i : ℕ) (x : α),
    l[i]? = some x → l.set i x = l
  | [], _, _, h => by simp at h
  | a :: t, 0, x, h => by simp_all
  | a :: t, i + 1, x, h => by
    simp only [List.getElem?_cons_succ] at h
    simp [List.set_cons_succ, set_self t i x h]

/-- Lists agreeing at index 0 have the same `headD`. -/
theorem headD_eq_of_first_eq {α : Type} (l₁ l₂ : List α) (d : α)
    (h : l₁[0]? = l₂[0]?) : l₁.headD d = l₂.headD d := by
  cases l₁ <;> cases l₂ <;> simp_all

/-- The frame loop of a voice whose playing flag is cleared does
nothing. -/
theorem voiceFrames_not_playing (buf : List (List ℚ)) (g : ℚ) :
    ∀ (n i cur : ℕ) (mix : List (List Val)) (vis : Option (List Val)),
      voiceFrames buf g i n cur false mix vis = (cur, false, mix, vis)
  | 0, _, _, _, _ => rfl
  | n + 1, _, _, _, _ => by simp [voiceFrames]

/-- Writing a list's own head back at index 0 changes nothing. -/
theorem set_headD_self {α : Type} (l : List α) (d : α) :
    l.set 0 (l.headD d) = l := by
  cases l <;> rfl

/-- Writing the bus selected by `selectVisBus` straight back is a
no-op. -/
theorem writeVisBack_select_self (outs : List (List (List Val))) (visIdx : ℕ) :
    writeVisBack outs visIdx (selectVisBus outs visIdx) = outs := by
  cases h : outs[visIdx]? with
  | none => simp [selectVisBus, writeVisBack, h]
  | some out =>
    by_cases hlen : out.length ≠ 0
    · have h2 : out.set 0 (out.head?.getD []) = out := by cases out <;> rfl
      simp [selectVisBus, writeVisBack, h, hlen, h2, set_self outs visIdx out h]
    · simp [selectVisBus, writeVisBack, h, hlen]

/-- `writeVisBack` touches only index `visIdx`. -/
theorem writeVisBack_get_ne (outs : List (List (List Val))) (visIdx : ℕ)
    (ov : Option (List Val)) (j : ℕ) (hj : j ≠ visIdx) :
    (writeVisBack outs visIdx ov)[j]? = outs[j]? := by
  unfold writeVisBack
  cases ov with
  | none => rfl
  | some vb =>
    cases h : outs[visIdx]? with
    | none => rfl
    | some out => exact List.getElem?_set_ne (fun he => hj he.symm)

/-- The cursor, playing flag and master-mix components of the voice
frame loop do not depend on the visualization bus argument. -/
theorem voiceFrames_vis_indep (buf : List (List ℚ)) (g : ℚ) :
    ∀ (n i cur : ℕ) (p : Bool) (mix : List (List Val))
      (vis₁ vis₂ : Option (List Val)),
      (voiceFrames buf g i n cur p mix vis₁).1 =
        (voiceFrames buf g i n cur p mix vis₂).1
      ∧ (voiceFrames buf g i n cur p mix vis₁).2.1 =
        (voiceFrames buf g i n cur p mix vis₂).2.1
      ∧ (voiceFrames buf g i n cur p mix vis₁).2.2.1 =
        (voiceFrames buf g i n cur p mix vis₂).2.2.1
  | 0, _, _, _, _, _, _ => ⟨rfl, rfl, rfl⟩
  | n + 1, i, cur, p, mix, vis₁, vis₂ => by
    cases p with
    | false => exact ⟨rfl, rfl, rfl⟩
    | true =>
      simp only [voiceFrames, if_true]
      split
      · exact ⟨rfl, rfl, rfl⟩
      · exact voiceFrames_vis_indep buf g n (i + 1) (cur + 1) true
          (addMixChannels buf g cur i 0 mix) _ _

/-- For a playing voice with a provisioned visualization bus, the frame
loop's visualization output is exactly the spec-side per-frame
accumulation `voiceVisRef` (channel 0 at the cursor, times gain). -/
theorem voiceFrames_vis_refines (buf : List (List ℚ)) (g : ℚ) :
    ∀ (n i cur : ℕ) (mix : List (List Val)) (visb : List Val),
      (voiceFrames buf g i n cur true mix (some visb)).2.2.2 =
        some (voiceVisRef buf g i n cur visb)
  | 0, _, _, _, _ => rfl
  | n + 1, i, cur, mix, visb => by
    simp only [voiceFrames, voiceVisRef, if_true]
    split
    · rfl
    · exact voiceFrames_vis_refines buf g n (i + 1) (cur + 1)
        (addMixChannels buf g cur i 0 mix) _

/-- A non-playing voice neither writes audio nor survives the sampler
loop: `renderVoiceBlock` removes it and leaves the outputs unchanged. -/
theorem renderVoiceBlock_not_playing (store : List (String × List (List ℚ)))
    (n : ℕ) (outs : List (List (List Val))) (v : SampleVoice)
    (hv : v.isPlaying = false) :
    renderVoiceBlock store n outs v = (none, outs) := by
  unfold renderVoiceBlock
  cases hm : mapGet store v.sampleId with
  | none => rfl
  | some buf =>
    dsimp only
    rw [hv, voiceFrames_not_playing, set_headD_self, writeVisBack_select_self]
    rfl

/-! ### Claim theorems -/

/-- C3: with the 4-frame all-ones sample on `pad1` triggered at
velocity 0.5, rendering one block of length 8 puts 0.5 in frames 0–3
and 0 in frames 4–7 of every master channel, and removes the voice from
the active set by the end of the block. Holds for every waveform
instantiation since the metronome and test tone are disabled. -/
theorem C3_concrete_render : ∀ msin stw : ℚ → ℚ,
    (process 48000 msin stw sTriggered outsStereo8).2.1 =
      [[[some (1 / 2), some (1 / 2), some (1 / 2), some (1 / 2),
         some 0, some 0, some 0, some 0],
        [some (1 / 2), some (1 / 2), some (1 / 2), some (1 / 2),
         some 0, some 0, some 0, some 0]]]
    ∧ (process 48000 msin stw sTriggered outsStereo8).1.activeVoices = [] := by
  intro msin stw
  constructor
  · with_unfolding_all rfl
  · with_unfolding_all rfl

/-- C4: `samplesPerBeat` is exactly `sampleRate * 60 / bpm` after any
`SET_BPM`; at 48 kHz and 120 bpm it is 24000 with a 24-PPQ interval of
1000 frames, and the first processed block emits the first `BEAT`
event carrying beat index 0 (followed in the same block by the first
timing pulse). -/
theorem C4_tempo_derivation :
    (∀ (R : ℚ) (s : MainProcessor) (B : ℚ),
      (onmessage R s (.setBpm B)).1.samplesPerBeat = R * 60 / B)
    ∧ (initState 48000).samplesPerBeat = 24000
    ∧ (initState 48000).samplesPerBeat / 24 = 1000
    ∧ ∀ msin stw : ℚ → ℚ,
        (process 48000 msin stw (initState 48000) outsStereo128).2.2 =
          [EngineEvent.beat 0, EngineEvent.clockTick] := by
  refine ⟨fun R s B => rfl, ?_, ?_, fun msin stw => ?_⟩
  · with_unfolding_all rfl
  · with_unfolding_all rfl
  · with_unfolding_all rfl

/-- C6: `SET_BPM` rewrites exactly the stored bpm and the derived
samples-per-beat, leaving the in-flight beat countdown, the timing
pulse countdown, the beat index, the metronome envelope, the voice
state and every other field untouched. -/
theorem C6_setBpm_frame (R : ℚ) (s : MainProcessor) (B : ℚ) :
    onmessage R s (.setBpm B) =
      ({ s with bpm := B, samplesPerBeat := R * 60 / B }, [EngineEvent.log]) :=
  rfl

/-- C7: a `PLAY_SAMPLE` for a pad with no loaded sample is a silent
no-op — the state is returned unchanged and no event is posted. -/
theorem C7_missing_sample_noop (R : ℚ) (s : MainProcessor) (id : String)
    (vel : ℚ) (h : mapGet s.sampleBuffers id = none) :
    onmessage R s (.playSample id vel) = (s, []) := by
  simp [onmessage, triggerVoice, h]

/-- Witness for C7: triggering `pad1` on the freshly initialized
engine changes nothing and posts nothing. -/
theorem C7_missing_sample_noop_witness :
    onmessage 48000 (initState 48000) (.playSample "pad1" (1 / 2)) =
      (initState 48000, []) :=
  C7_missing_sample_noop 48000 (initState 48000) "pad1" (1 / 2) rfl

/-- C1 counterexample: `pad1` holds all-ones, a voice is in flight,
and `LOAD_SAMPLE` replaces the sample with all-fives; the very next
rendered block reads the NEW buffer (all frames 5), not the buffer the
voice started with (which would have produced all frames 1). -/
theorem C1_counterexample :
    (process 48000 zeroSin zeroSin sReplacedFives outsStereo4).2.1 =
      [[[some 5, some 5, some 5, some 5], [some 5, some 5, some 5, some 5]]]
    ∧ (process 48000 zeroSin zeroSin sReplacedFives outsStereo4).2.1 ≠
      [[[some 1, some 1, some 1, some 1], [some 1, some 1, some 1, some 1]]] := by
  have h : (process 48000 zeroSin zeroSin sReplacedFives outsStereo4).2.1 =
      [[[some 5, some 5, some 5, some 5], [some 5, some 5, some 5, some 5]]] := by
    with_unfolding_all rfl
  constructor
  · exact h
  · rw [h]
    norm_num

/-- C1 (amended): `LOAD_SAMPLE` replaces the stored buffer under the
pad id and leaves the in-flight voice itself untouched, but a voice
references its sample only by pad id, so subsequent render blocks read
the NEWLY stored buffer: concretely, after replacing threes with
sevens under a playing voice the next block renders sevens. -/
theorem C1_amended_replacement_visible :
    (∀ (R : ℚ) (s : MainProcessor) (id : String) (b : List (List ℚ)),
      (onmessage R s (.loadSample id b)).1 =
        { s with sampleBuffers := mapSet s.sampleBuffers id b })
    ∧ (∀ (store : List (String × List (List ℚ))) (id : String)
        (b : List (List ℚ)), mapGet (mapSet store id b) id = some b)
    ∧ (process 48000 zeroSin zeroSin sReplacedSevens outsStereo4).2.1 =
      [[[some 7, some 7, some 7, some 7], [some 7, some 7, some 7, some 7]]] := by
  refine ⟨fun R s id b => rfl, ?_, by with_unfolding_all rfl⟩
  intro store id b
  induction store with
  | nil => simp [mapSet, mapGet]
  | cons kv rest ih =>
    by_cases h : kv.1 = id
    · simp [mapSet, h, mapGet]
    · simpa [mapSet, h, mapGet] using ih

/-- C9 counterexample: `pad1` sits in choke group 1; triggering it
twice while the first voice still plays leaves the first voice
hard-stopped (`playing = false`), so two overlapping voices of the same
pad do NOT coexist as playing voices when the pad is choke-grouped. -/
theorem C9_counterexample :
    sSelfChoke.activeVoices.map (·.isPlaying) = [false, true]
    ∧ sSelfChoke.activeVoices.map (·.sampleId) = ["pad1", "pad1"]
    ∧ sSelfChoke.activeVoices.all (·.isPlaying) = false := by
  refine ⟨?_, ?_, ?_⟩ <;> with_unfolding_all rfl

/-- C9 (amended): two overlapping triggers of the same pad coexist as
separate playing voices when the pad belongs to no choke group; when
the pad is in a choke group, the trigger's hard-stop applies to every
playing voice of that group including earlier voices of the very same
pad. -/
theorem C9_amended_same_pad (s : MainProcessor) (p : String) (vel : ℚ)
    (buf : List (List ℚ)) (hp : mapGet s.sampleBuffers p = some buf) :
    (mapGet s.chokeGroups p = none →
      (triggerVoice s p vel).activeVoices =
        s.activeVoices ++
          [{ sampleId := p, bufferIndex := 0, isPlaying := true,
             gain := vel, visSlot := padSlot p }])
    ∧ (∀ g : ℤ, mapGet s.chokeGroups p = some g →
        ∀ (i : ℕ) (v : SampleVoice), s.activeVoices[i]? = some v →
          v.sampleId = p → v.isPlaying = true →
            (triggerVoice s p vel).activeVoices[i]? =
              some { v with isPlaying := false }) := by
  constructor
  · intro hnone
    simp [triggerVoice, hp, hnone]
  · intro g hg i v hi hid hplay
    have hlt : i < s.activeVoices.length := by
      by_contra hge
      rw [List.getElem?_eq_none (Nat.le_of_not_lt hge)] at hi
      exact Option.noConfusion hi
    simp only [triggerVoice, hp, Option.isSome_some, if_true, hg]
    rw [List.getElem?_append_left (by simpa using hlt), List.getElem?_map, hi]
    simp [hplay, hid, hg]

/-- Witness for C9's amended theorem: on the engine with only `pad1`
loaded (no choke group), a trigger simply appends a playing voice. -/
theorem C9_amended_same_pad_witness :
    (triggerVoice sLoaded "pad1" 1).activeVoices =
      [{ sampleId := "pad1", bufferIndex := 0, isPlaying := true,
         gain := 1, visSlot := 0 }] :=
  (C9_amended_same_pad sLoaded "pad1" 1 [[1, 1, 1, 1]] rfl).1 rfl

/-- The clock frame never reads or writes the metronome-enabled flag. -/
theorem clockFrame_metroFlag (s : MainProcessor) (b : Bool) :
    clockFrame { s with isMetronomeEnabled := b } =
      ({ (clockFrame s).1 with isMetronomeEnabled := b }, (clockFrame s).2) := by
  cases s
  unfold clockFrame triggerMetronome
  dsimp only
  split_ifs <;> rfl

/-- The clock loop never reads or writes the metronome-enabled flag. -/
theorem clockLoop_metroFlag (n : ℕ) : ∀ (s : MainProcessor) (b : Bool),
    clockLoop n { s with isMetronomeEnabled := b } =
      ({ (clockLoop n s).1 with isMetronomeEnabled := b }, (clockLoop n s).2) := by
  induction n with
  | zero => intro s b; rfl
  | succ n ih =>
    intro s b
    simp only [clockLoop]
    rw [clockFrame_metroFlag]
    dsimp only
    rw [ih]

/-- Metronome sound generation only updates the envelope phase. -/
theorem metroSound_ticks (msin : ℚ → ℚ) (n : ℕ) (s : MainProcessor)
    (outs : List (List (List Val))) :
    (metroSound msin n s outs).1.ticksUntilNextClock = s.ticksUntilNextClock := by
  unfold metroSound
  split <;> rfl

/-- The test tone only updates the oscillator phase. -/
theorem toneGen_ticks (stw : ℚ → ℚ) (R : ℚ) (n : ℕ) (s : MainProcessor)
    (outs : List (List (List Val))) :
    (toneGen stw R n s outs).1.ticksUntilNextClock = s.ticksUntilNextClock := by
  unfold toneGen
  split <;> rfl

/-- All events of a processed block come from the clock loop. -/
theorem process_events (R : ℚ) (msin stw : ℚ → ℚ) (s : MainProcessor)
    (outs : List (List (List Val))) :
    (process R msin stw s outs).2.2 =
      match outs[0]? with
      | none => []
      | some mix =>
        if mix.length = 0 then [] else (clockLoop (mix.headD []).length s).2 := by
  unfold process
  split
  · rfl
  · split <;> rfl

/-- After a processed block the 24-PPQ countdown is exactly the clock
loop's: neither the metronome sound, the tone, nor the sampler touch
it. -/
theorem process_ticks (R : ℚ) (msin stw : ℚ → ℚ) (s : MainProcessor)
    (outs : List (List (List Val))) :
    (process R msin stw s outs).1.ticksUntilNextClock =
      match outs[0]? with
      | none => s.ticksUntilNextClock
      | some mix =>
        if mix.length = 0 then s.ticksUntilNextClock
        else (clockLoop (mix.headD []).length s).1.ticksUntilNextClock := by
  unfold process
  split
  · rfl
  · split
    · rfl
    · dsimp only
      rw [toneGen_ticks, metroSound_ticks]

/-- C5: every frame decrements the 24-PPQ (CLOCK_TICK) countdown and,
when it reaches ≤ 0, emits a pulse and reloads `samplesPerBeat / 24`;
the block's event stream and final pulse countdown are identical
whether or not the metronome is enabled, and a `TOGGLE_METRONOME`
command never changes the pulse countdown. -/
theorem C5_pulse_unconditional :
    ∀ (R : ℚ) (msin stw : ℚ → ℚ) (s : MainProcessor)
      (outs : List (List (List Val))) (b : Bool),
      (process R msin stw { s with isMetronomeEnabled := b } outs).2.2 =
        (process R msin stw s outs).2.2
      ∧ (process R msin stw
            { s with isMetronomeEnabled := b } outs).1.ticksUntilNextClock =
          (process R msin stw s outs).1.ticksUntilNextClock
      ∧ (onmessage R s (.toggleMetronome b)).1.ticksUntilNextClock =
          s.ticksUntilNextClock
      ∧ ∀ s' : MainProcessor,
          ((clockFrame s').1.ticksUntilNextClock =
            if s'.ticksUntilNextClock - 1 ≤ 0 then s'.samplesPerBeat / 24
            else s'.ticksUntilNextClock - 1)
          ∧ (EngineEvent.clockTick ∈ (clockFrame s').2 ↔
              s'.ticksUntilNextClock - 1 ≤ 0) := by
  intro R msin stw s outs b
  refine ⟨?_, ?_, ?_, ?_⟩
  · rw [process_events, process_events]
    cases houts : outs[0]? with
    | none => rfl
    | some mix =>
      dsimp only
      by_cases hlen : mix.length = 0
      · rw [if_pos hlen, if_pos hlen]
      · rw [if_neg hlen, if_neg hlen, clockLoop_metroFlag]
  · rw [process_ticks, process_ticks]
    cases houts : outs[0]? with
    | none => rfl
    | some mix =>
      dsimp only
      by_cases hlen : mix.length = 0
      · rw [if_pos hlen, if_pos hlen]
      · rw [if_neg hlen, if_neg hlen, clockLoop_metroFlag]
  · unfold onmessage
    cases b <;> rfl
  · intro s'
    constructor
    · unfold clockFrame triggerMetronome
      dsimp only
      split_ifs <;> rfl
    · unfold clockFrame triggerMetronome
      dsimp only
      split_ifs <;> simp_all

/-- C2: triggering a pad `B` that has a loaded sample and sits in choke
group `g` hard-stops (playing flag cleared, nothing else touched) every
currently playing voice whose pad maps to `g`, and leaves the playing
flag, cursor and gain of every other voice unchanged; a voice whose
playing flag is cleared contributes no audio from that block onward —
the sampler removes it without writing to any output. -/
theorem C2_choke_group_stop (s : MainProcessor) (B : String) (g : ℤ)
    (vel : ℚ) (buf : List (List ℚ))
    (hB : mapGet s.sampleBuffers B = some buf)
    (hg : mapGet s.chokeGroups B = some g) :
    (∀ (i : ℕ) (v : SampleVoice), s.activeVoices[i]? = some v →
      (triggerVoice s B vel).activeVoices[i]? = some
        { v with isPlaying :=
            if v.isPlaying ∧ mapGet s.chokeGroups v.sampleId = some g then false
            else v.isPlaying })
    ∧ (∀ (store : List (String × List (List ℚ))) (n : ℕ)
        (outs : List (List (List Val))) (v : SampleVoice),
        v.isPlaying = false → renderVoiceBlock store n outs v = (none, outs)) := by
  constructor
  · intro i v hi
    have hlt : i < s.activeVoices.length := by
      by_contra hge
      rw [List.getElem?_eq_none (Nat.le_of_not_lt hge)] at hi
      exact Option.noConfusion hi
    simp only [triggerVoice, hB, Option.isSome_some, if_true, hg]
    rw [List.getElem?_append_left (by simpa using hlt), List.getElem?_map, hi]
    by_cases hc : v.isPlaying ∧ mapGet s.chokeGroups v.sampleId = some g
    · simp [hc]
    · simp [hc]
  · intro store n outs v hv
    exact renderVoiceBlock_not_playing store n outs v hv

/-- Witness for C2: in `sChoke` (pads 1 and 2 in group 1, pad 3 in
group 2, voices playing on pads 1 and 3), triggering `pad2` stops the
`pad1` voice in place. -/
theorem C2_choke_group_stop_witness :
    (triggerVoice sChoke "pad2" (3 / 4)).activeVoices[0]? =
      some { sampleId := "pad1", bufferIndex := 0, isPlaying := false,
             gain := 1, visSlot := 0 } := by
  have h := (C2_choke_group_stop sChoke "pad2" 1 (3 / 4) [[2, 2]]
    (by with_unfolding_all rfl) (by with_unfolding_all rfl)).1 0
    { sampleId := "pad1", bufferIndex := 0, isPlaying := true,
      gain := 1, visSlot := 0 } (by with_unfolding_all rfl)
  rw [h]
  with_unfolding_all rfl

/-- C8: a trigger on a pad with a loaded sample appends a voice with
cursor 0, gain equal to the velocity, playing flag set, and the
visualization slot derived from the pad identifier: `padN` with
`1 ≤ N ≤ 16` yields slot `N - 1`, while an identifier whose ordinal
cannot be parsed (or parses out of range) yields slot 0. -/
theorem C8_voice_creation :
    (∀ (s : MainProcessor) (id : String) (vel : ℚ) (buf : List (List ℚ)),
      mapGet s.sampleBuffers id = some buf →
      (triggerVoice s id vel).activeVoices.getLast? =
        some { sampleId := id, bufferIndex := 0, isPlaying := true,
               gain := vel, visSlot := padSlot id })
    ∧ (∀ N : ℕ, 1 ≤ N → N ≤ 16 → padSlot ("pad" ++ toString N) = N - 1)
    ∧ (∀ id : String,
        parseIntJS (replaceFirst ['p', 'a', 'd'] id.data) = none →
        padSlot id = 0)
    ∧ (∀ (id : String) (n : ℤ),
        parseIntJS (replaceFirst ['p', 'a', 'd'] id.data) = some n →
        ¬(1 ≤ n ∧ n ≤ 16) → padSlot id = 0) := by
  refine ⟨?_, ?_, ?_, ?_⟩
  · intro s id vel buf hB
    simp only [triggerVoice, hB, Option.isSome_some, if_true]
    rw [List.getLast?_concat]
  · intro N h1 h16
    interval_cases N <;> rfl
  · intro id h
    simp [padSlot, h]
  · intro id n h hrange
    simp [padSlot, h, hrange]

/-- Witness for C8: triggering loaded `pad1` at velocity 0.5 appends
the expected voice with visualization slot 0. -/
theorem C8_voice_creation_witness :
    (triggerVoice sLoaded "pad1" (1 / 2)).activeVoices.getLast? =
      some { sampleId := "pad1", bufferIndex := 0, isPlaying := true,
             gain := 1 / 2, visSlot := 0 } := by
  have h := C8_voice_creation.1 sLoaded "pad1" (1 / 2) [[1, 1, 1, 1]]
    (by with_unfolding_all rfl)
  rw [h]
  with_unfolding_all rfl

/-- The sample store with only the 4-frame all-ones sample on `pad1`. -/
def storePad1 : List (String × List (List ℚ)) := [("pad1", [[1, 1, 1, 1]])]

/-- A fresh playing voice of `pad1` at half gain, visualization slot
0. -/
def vPad1 : SampleVoice :=
  { sampleId := "pad1", bufferIndex := 0, isPlaying := true,
    gain := 1 / 2, visSlot := 0 }

/-- Stereo mix of block length 4 plus one provisioned mono
visualization output (for slot 0). -/
def outsStereoVis4 : List (List (List Val)) :=
  [[List.replicate 4 (some 0), List.replicate 4 (some 0)],
   [List.replicate 4 (some 0)]]

/-- C10: a voice whose visualization output is not provisioned is still
accumulated into the master bus exactly as a provisioned one — the
voice's survival and the resulting mix depend only on `outputs[0]` —
and only the master bus (index 0) and the voice's own visualization
output (index `visSlot + 1`) are ever written; when the bus is
provisioned, each rendered frame accumulates sample channel 0 at the
cursor times the voice gain into it (`voiceVisRef`). -/
theorem C10_vis_output_safety :
    (∀ (store : List (String × List (List ℚ))) (n : ℕ) (v : SampleVoice)
        (outs₁ outs₂ : List (List (List Val))), outs₁[0]? = outs₂[0]? →
      (renderVoiceBlock store n outs₁ v).1 = (renderVoiceBlock store n outs₂ v).1
      ∧ (renderVoiceBlock store n outs₁ v).2[0]? =
          (renderVoiceBlock store n outs₂ v).2[0]?)
    ∧ (∀ (store : List (String × List (List ℚ))) (n : ℕ)
        (outs : List (List (List Val))) (v : SampleVoice) (j : ℕ),
        j ≠ 0 → j ≠ v.visSlot + 1 →
        (renderVoiceBlock store n outs v).2[j]? = outs[j]?)
    ∧ (∀ (buf : List (List ℚ)) (g : ℚ) (n i cur : ℕ)
        (mix : List (List Val)) (visb : List Val),
        (voiceFrames buf g i n cur true mix (some visb)).2.2.2 =
          some (voiceVisRef buf g i n cur visb)) := by
  refine ⟨?_, ?_, ?_⟩
  · intro store n v outs₁ outs₂ h0
    unfold renderVoiceBlock
    cases hm : mapGet store v.sampleId with
    | none => exact ⟨rfl, h0⟩
    | some buf =>
      dsimp only
      have hhead : outs₁.headD [] = outs₂.headD [] :=
        headD_eq_of_first_eq _ _ _ h0
      rw [hhead]
      obtain ⟨hc, hp, hmix⟩ := voiceFrames_vis_indep buf v.gain n 0 v.bufferIndex
        v.isPlaying (outs₂.headD []) (selectVisBus outs₁ (v.visSlot + 1))
        (selectVisBus outs₂ (v.visSlot + 1))
      constructor
      · rw [hc, hp]
      · rw [writeVisBack_get_ne _ _ _ 0 (Nat.succ_ne_zero _).symm,
          writeVisBack_get_ne _ _ _ 0 (Nat.succ_ne_zero _).symm,
          List.getElem?_set, List.getElem?_set, hmix]
        have hlen : 0 < outs₁.length ↔ 0 < outs₂.length := by
          cases outs₁ <;> cases outs₂ <;> simp_all
        by_cases hl : 0 < outs₁.length
        · rw [if_pos rfl, if_pos rfl, if_pos hl, if_pos (hlen.mp hl)]
        · rw [if_pos rfl, if_pos rfl, if_neg hl,
            if_neg (fun hh => hl (hlen.mpr hh))]
  · intro store n outs v j hj0 hjv
    unfold renderVoiceBlock
    cases hm : mapGet store v.sampleId with
    | none => rfl
    | some buf =>
      dsimp only
      rw [writeVisBack_get_ne _ _ _ j hjv,
        List.getElem?_set_ne (fun h => hj0 h.symm)]
  · intro buf g n i cur mix visb
    exact voiceFrames_vis_refines buf g n i cur mix visb

/-- Witness for C10: rendering the `pad1` voice against a host that
provisions no visualization output gives the same surviving voice and
the same master mix as a host that provisions one. -/
theorem C10_vis_output_safety_witness :
    (renderVoiceBlock storePad1 4 outsStereo4 vPad1).1 =
      (renderVoiceBlock storePad1 4 outsStereoVis4 vPad1).1
    ∧ (renderVoiceBlock storePad1 4 outsStereo4 vPad1).2[0]? =
      (renderVoiceBlock storePad1 4 outsStereoVis4 vPad1).2[0]? :=
  C10_vis_output_safety.1 storePad1 4 vPad1 outsStereo4 outsStereoVis4 rfl

end Embryo
